import Mathlib

/-!
Verification of the serverless CRUD coffee-shop service: the request-handling
and authorization contract (list, get-by-id, create, update, delete) over a
key-value store, wrapped in a uniform response envelope and a bearer-token
authorization guard.

The response builder (`createResponse`), the exported symbols of the shared
`utils.mjs` layer, the API-gateway route table and the frontend OIDC
configuration are translated directly from the repository's files.  The
Lambda handler bodies themselves are not part of the repository snapshot, so
the store adapter, validator, guard and handlers are modelled from the spec
(each such definition says so in its doc comment).
-/

/-- JSON values, the wire data model: item payloads, response bodies and the
free-form attributes the spec allows are JSON objects.  Numbers are modelled
as integers (the model does not need fractional prices for any claim). -/
inductive Json where
  | null : Json
  | bool : Bool → Json
  | num : Int → Json
  | str : String → Json
  | arr : List Json → Json
  | obj : List (String × Json) → Json
deriving Repr

mutual

/-- `JSON.stringify`: compact serialization, as node's `JSON.stringify`
produces for the bodies built by `createResponse`. -/
def Json.stringify : Json → String
  | .null => "null"
  | .bool true => "true"
  | .bool false => "false"
  | .num n => toString n
  | .str s => "\"" ++ s ++ "\""
  | .arr xs => "[" ++ Json.stringifyList xs ++ "]"
  | .obj fs => "\x7b" ++ Json.stringifyFields fs ++ "\x7d"

/-- Comma-separated serialization of a JSON array's elements. -/
def Json.stringifyList : List Json → String
  | [] => ""
  | [x] => x.stringify
  | x :: xs => x.stringify ++ "," ++ Json.stringifyList xs

/-- Comma-separated serialization of a JSON object's fields. -/
def Json.stringifyFields : List (String × Json) → String
  | [] => ""
  | [(k, v)] => "\"" ++ k ++ "\":" ++ v.stringify
  | (k, v) :: fs => "\"" ++ k ++ "\":" ++ v.stringify ++ "," ++ Json.stringifyFields fs

end

/-- An HTTP-style wire response as the Lambda functions return it to the API
gateway: status code, headers, and a serialized body. -/
structure Response where
  statusCode : Nat
  headers : List (String × String)
  body : String
deriving Repr, DecidableEq

/-- From `utils.mjs` (shared Lambda layer):
`const createResponse = (statusCode, body) => ({ statusCode, headers:
\x7b "Content-Type": "application/json" \x7d, body: JSON.stringify(body) })`. -/
def createResponse (statusCode : Nat) (body : Json) : Response :=
  { statusCode := statusCode
    headers := [("Content-Type", "application/json")]
    body := Json.stringify body }

/-- From `utils.mjs`: the names the shared layer exports. -/
def utilsExports : List String :=
  ["docClient", "createResponse", "ScanCommand", "GetCommand", "PutCommand",
   "UpdateCommand", "DeleteCommand"]

/-- From the README's API-gateway route table (Step 5): each route's HTTP
method and path, and the Lambda function the route is integrated with. -/
def routes : List ((String × String) × String) :=
  [(("GET", "/coffee"), "getCoffee"),
   (("GET", "/coffee/{id}"), "getCoffee"),
   (("POST", "/coffee"), "createCoffee"),
   (("PUT", "/coffee/{id}"), "updateCoffee"),
   (("DELETE", "/coffee/{id}"), "deleteCoffee")]

/-- The Lambda function the API gateway dispatches a (method, path) pair to,
`none` when no route matches. -/
def routeTarget (method : String) (path : String) : Option String :=
  (routes.lookup (method, path))

/-- The frontend's OIDC client configuration record
(`cognitoAuthConfig` in `frontend/src/main.jsx`). -/
structure AuthConfig where
  authority : String
  client_id : String
  redirect_uri : String
  response_type : String
  scope : String
deriving Repr, DecidableEq

/-- From `frontend/src/main.jsx`: `cognitoAuthConfig` reads `authority`,
`client_id` and `redirect_uri` from `import.meta.env` and fixes
`response_type` and `scope` as literals.  The environment is modelled as a
map from variable names to values. -/
def cognitoAuthConfig (env : String → String) : AuthConfig :=
  { authority := env "VITE_COGNITO_AUTHORITY"
    client_id := env "VITE_COGNITO_CLIENT_ID"
    redirect_uri := env "VITE_COGNITO_REDIRECT_URI"
    response_type := "code"
    scope := "email openid phone" }

/-- An item payload or stored item: a JSON object's fields (the spec permits
free-form attributes beyond `id`, `name`, `price`, `availability`). -/
abbrev Item := List (String × Json)

/-- Set key `k` to value `v` in an association list: replace the first
binding of `k` if present, else append. -/
def setAssoc {α : Type} : List (String × α) → String → α → List (String × α)
  | [], k, v => [(k, v)]
  | (k', v') :: rest, k, v =>
      if k' = k then (k, v) :: rest else (k', v') :: setAssoc rest k v

/-- Remove every binding of key `k` from an association list. -/
def removeAssoc {α : Type} (l : List (String × α)) (k : String) :
    List (String × α) :=
  l.filter fun kv => !(kv.1 = k)

/-- Modelled from the spec: the backing key-value store (one table, primary
key = item id), plus the store-access counter the spec's testable property
for authorization uses ("verifiable via a store-access counter staying at
zero"). -/
structure Store where
  items : List (String × Item)
  accessCount : Nat
deriving Repr

/-- Modelled from the spec: store adapter `get(id) -> Item | NotFound`.
Every adapter call counts as one store access. -/
def Store.getItem (s : Store) (id : String) : Option Item × Store :=
  (s.items.lookup id, { s with accessCount := s.accessCount + 1 })

/-- Modelled from the spec: store adapter `list() -> sequence of Item`
(full scan semantics). -/
def Store.scanItems (s : Store) : List Item × Store :=
  (s.items.map Prod.snd, { s with accessCount := s.accessCount + 1 })

/-- Modelled from the spec: store adapter `put(item)` keyed by the item's id
(naive put semantics: replaces any existing binding). -/
def Store.putItem (s : Store) (id : String) (it : Item) : Store :=
  { items := setAssoc s.items id it, accessCount := s.accessCount + 1 }

/-- Modelled from the spec: store adapter `update(id, partialFields) ->
Item | NotFound`, merging the given fields into the stored item. -/
def Store.updateItem (s : Store) (id : String) (fields : Item) :
    Option Item × Store :=
  match s.items.lookup id with
  | none => (none, { s with accessCount := s.accessCount + 1 })
  | some old =>
      let merged := fields.foldl (fun acc kv => setAssoc acc kv.1 kv.2) old
      (some merged,
       { items := setAssoc s.items id merged, accessCount := s.accessCount + 1 })

/-- Modelled from the spec: store adapter `delete(id) -> Success | NotFound`. -/
def Store.deleteItem (s : Store) (id : String) : Bool × Store :=
  match s.items.lookup id with
  | none => (false, { s with accessCount := s.accessCount + 1 })
  | some _ =>
      (true, { items := removeAssoc s.items id, accessCount := s.accessCount + 1 })

/-- Is the optional field a non-empty JSON string?  (`id` and `name` checks.) -/
def nonemptyStr : Option Json → Bool
  | some (.str s) => !(s = "")
  | _ => false

/-- Is the required `price` field a non-negative JSON number? -/
def priceField : Option Json → Bool
  | some (.num n) => decide (0 ≤ n)
  | _ => false

/-- Is the optional `price` field, when present, a non-negative JSON number? -/
def priceFieldOpt : Option Json → Bool
  | none => true
  | o => priceField o

/-- Is the optional `name` field, when present, a non-empty JSON string? -/
def nameFieldOpt : Option Json → Bool
  | none => true
  | o => nonemptyStr o

/-- Is the optional `availability` field, when present, a JSON boolean? -/
def availField : Option Json → Bool
  | none => true
  | some (.bool _) => true
  | _ => false

/-- Modelled from the spec: `validateCreate(payload) -> Item |
ValidationError`.  Requires a caller-supplied string `id` (the spec's
duplicate-id conflict path presumes caller-chosen ids), a non-empty string
`name`, a non-negative numeric `price`; `availability`, when present, must
be boolean; other attributes pass through.  Pure: no store argument. -/
def validateCreate (payload : Item) : Except String Item :=
  if !(nonemptyStr (payload.lookup "id")) then
    .error "id must be a non-empty string"
  else if !(nonemptyStr (payload.lookup "name")) then
    .error "name must be a non-empty string"
  else if !(priceField (payload.lookup "price")) then
    .error "price must be a non-negative number"
  else if !(availField (payload.lookup "availability")) then
    .error "availability must be a boolean"
  else
    .ok payload

/-- Modelled from the spec: `validateUpdate(payload) -> partial Item |
ValidationError`.  `id` is never a mutable field (updates never change
`id`); at least one mutable field must be present; present fields are
type-checked as on create.  Pure: no store argument. -/
def validateUpdate (payload : Item) : Except String Item :=
  let fields := removeAssoc payload "id"
  if fields.isEmpty then
    .error "at least one updatable field is required"
  else if !(nameFieldOpt (fields.lookup "name")) then
    .error "name must be a non-empty string"
  else if !(priceFieldOpt (fields.lookup "price")) then
    .error "price must be a non-negative number"
  else if !(availField (fields.lookup "availability")) then
    .error "availability must be a boolean"
  else
    .ok fields

/-- The id of a validated create payload (its `id` field's string). -/
def itemId (it : Item) : String :=
  match it.lookup "id" with
  | some (.str s) => s
  | _ => ""

/-- A uniform error body: `\x7b "message": <string> \x7d`. -/
def messageBody (msg : String) : Json :=
  .obj [("message", .str msg)]

/-- Modelled from the spec: a bearer token's verifiable attributes — the
signature against the identity provider's published keys, the issuer and
audience claims, and expiry. -/
structure Token where
  signatureValid : Bool
  issuerOk : Bool
  audienceOk : Bool
  expired : Bool
deriving Repr, DecidableEq

/-- A token is valid when its signature, issuer and audience check out and it
is unexpired. -/
def Token.valid (t : Token) : Bool :=
  t.signatureValid && t.issuerOk && t.audienceOk && !t.expired

/-- Modelled from the spec: the Authorization Guard.  `none` models a request
with no bearer token; an invalid or expired token fails verification. -/
def authGuard (auth : Option Token) : Bool :=
  match auth with
  | none => false
  | some t => t.valid

/-- The five operations of the HTTP surface, each with its input. -/
inductive Route where
  | listAll : Route
  | getById : String → Route
  | create : Item → Route
  | update : String → Item → Route
  | remove : String → Route
deriving Repr

/-- An inbound request: the (optional) bearer token and the matched route. -/
structure Request where
  auth : Option Token
  route : Route
deriving Repr

/-- Modelled from the spec: the List handler — `list()`, 200 with the array
of items. -/
def listHandler (s : Store) : Response × Store :=
  let (its, s') := s.scanItems
  (createResponse 200 (.arr (its.map Json.obj)), s')

/-- Modelled from the spec: the GetById handler — `get(id)`, 200 with the
item or 404. -/
def getByIdHandler (id : String) (s : Store) : Response × Store :=
  match s.getItem id with
  | (none, s') => (createResponse 404 (messageBody "Not Found"), s')
  | (some it, s') => (createResponse 200 (.obj it), s')

/-- Modelled from the spec: the Create handler — `validateCreate`, then a
duplicate-id check (409 on conflict rather than silently overwriting), then
`put(item)` and 201 with the created item. -/
def createHandler (payload : Item) (s : Store) : Response × Store :=
  match validateCreate payload with
  | .error _ => (createResponse 400 (messageBody "Invalid request body"), s)
  | .ok it =>
      match s.getItem (itemId it) with
      | (some _, s') => (createResponse 409 (messageBody "Conflict"), s')
      | (none, s') => (createResponse 201 (.obj it), s'.putItem (itemId it) it)

/-- Modelled from the spec: the Update handler — `validateUpdate`, then
`update(id, fields)`, 200 with the updated item or 404. -/
def updateHandler (id : String) (payload : Item) (s : Store) :
    Response × Store :=
  match validateUpdate payload with
  | .error _ => (createResponse 400 (messageBody "Invalid request body"), s)
  | .ok fields =>
      match s.updateItem id fields with
      | (none, s') => (createResponse 404 (messageBody "Not Found"), s')
      | (some it, s') => (createResponse 200 (.obj it), s')

/-- Modelled from the spec: the Delete handler — `delete(id)`, 200 on
removal or 404. -/
def deleteHandler (id : String) (s : Store) : Response × Store :=
  match s.deleteItem id with
  | (false, s') => (createResponse 404 (messageBody "Not Found"), s')
  | (true, s') => (createResponse 200 (messageBody "Deleted"), s')

/-- Modelled from the spec: the per-request pipeline.  The Authorization
Guard runs first; on failure it short-circuits to a 401 with body
`\x7b "message": "Unauthorized" \x7d` and no handler executes; on success the
matched route's handler runs. -/
def handleRequest (req : Request) (s : Store) : Response × Store :=
  if authGuard req.auth then
    match req.route with
    | .listAll => listHandler s
    | .getById id => getByIdHandler id s
    | .create payload => createHandler payload s
    | .update id payload => updateHandler id payload s
    | .remove id => deleteHandler id s
  else
    (createResponse 401 (messageBody "Unauthorized"), s)

/-! Helper lemmas about association lists and the envelope. -/

theorem lookup_setAssoc_self {α : Type} (l : List (String × α)) (k : String)
    (v : α) : (setAssoc l k v).lookup k = some v := by
  induction l with
  | nil => simp [setAssoc]
  | cons hd tl ih =>
      obtain ⟨k', v'⟩ := hd
      by_cases h : k' = k
      · simp [setAssoc, h]
      · have hb : (k == k') = false := beq_eq_false_iff_ne.mpr (Ne.symm h)
        simp [setAssoc, h, List.lookup, hb, ih]

theorem lookup_setAssoc_ne {α : Type} (l : List (String × α)) (k k' : String)
    (v : α) (h : k' ≠ k) : (setAssoc l k v).lookup k' = l.lookup k' := by
  have hb : (k' == k) = false := beq_eq_false_iff_ne.mpr h
  induction l with
  | nil => simp [setAssoc, List.lookup, hb]
  | cons hd tl ih =>
      obtain ⟨a, b⟩ := hd
      by_cases ha : a = k
      · subst ha
        simp [setAssoc, List.lookup, hb]
      · simp [setAssoc, ha, List.lookup, ih]

theorem setAssoc_idem {α : Type} (l : List (String × α)) (k : String) (v : α) :
    setAssoc (setAssoc l k v) k v = setAssoc l k v := by
  induction l with
  | nil => simp [setAssoc]
  | cons hd tl ih =>
      obtain ⟨a, b⟩ := hd
      by_cases ha : a = k
      · simp [setAssoc, ha]
      · simp [setAssoc, ha, ih]

theorem lookup_mem {α β : Type} [BEq α] [LawfulBEq α] (l : List (α × β))
    (k : α) (v : β) (h : l.lookup k = some v) : (k, v) ∈ l := by
  induction l with
  | nil => simp [List.lookup] at h
  | cons hd tl ih =>
      obtain ⟨a, b⟩ := hd
      by_cases ha : k == a
      · simp [List.lookup, ha] at h
        subst h
        simp [eq_of_beq ha]
      · simp [List.lookup, ha] at h
        exact List.mem_cons_of_mem _ (ih h)

/-- Every branch of the pipeline returns through `createResponse`, and every
error branch (status at least 400) passes a `\x7b "message": <string> \x7d`
body to it. -/
theorem envelope_shape (req : Request) (s : Store) :
    ∃ sc b, (handleRequest req s).1 = createResponse sc b ∧
      (400 ≤ sc → ∃ m, b = messageBody m) := by
  unfold handleRequest
  by_cases hauth : authGuard req.auth
  · simp only [hauth, if_true]
    cases req.route with
    | listAll =>
        exact ⟨200, _, rfl, fun h => absurd h (by decide)⟩
    | getById id =>
        dsimp only
        unfold getByIdHandler
        rcases hg : s.getItem id with ⟨r, s'⟩
        cases r with
        | none => exact ⟨404, _, rfl, fun _ => ⟨"Not Found", rfl⟩⟩
        | some it => exact ⟨200, _, rfl, fun h => absurd h (by decide)⟩
    | create payload =>
        dsimp only
        unfold createHandler
        rcases hv : validateCreate payload with e | it
        · exact ⟨400, _, rfl, fun _ => ⟨"Invalid request body", rfl⟩⟩
        · dsimp only
          rcases hg : s.getItem (itemId it) with ⟨r, s'⟩
          cases r with
          | none => exact ⟨201, _, rfl, fun h => absurd h (by decide)⟩
          | some old => exact ⟨409, _, rfl, fun _ => ⟨"Conflict", rfl⟩⟩
    | update id payload =>
        dsimp only
        unfold updateHandler
        rcases hv : validateUpdate payload with e | fields
        · exact ⟨400, _, rfl, fun _ => ⟨"Invalid request body", rfl⟩⟩
        · dsimp only
          rcases hu : s.updateItem id fields with ⟨r, s'⟩
          cases r with
          | none => exact ⟨404, _, rfl, fun _ => ⟨"Not Found", rfl⟩⟩
          | some it => exact ⟨200, _, rfl, fun h => absurd h (by decide)⟩
    | remove id =>
        dsimp only
        unfold deleteHandler
        rcases hd : s.deleteItem id with ⟨r, s'⟩
        cases r with
        | false => exact ⟨404, _, rfl, fun _ => ⟨"Not Found", rfl⟩⟩
        | true => exact ⟨200, _, rfl, fun h => absurd h (by decide)⟩
  · simp only [hauth, if_false]
    exact ⟨401, _, rfl, fun _ => ⟨"Unauthorized", rfl⟩⟩

/-! The claims. -/

/-- C1: a request whose bearer token is missing, invalid, or expired is
rejected with status 401 and body `\x7b "message": "Unauthorized" \x7d`
before any handler logic executes and before any store access occurs: the
pipeline returns the 401 envelope and the store — its access counter
included — is untouched, on every route. -/
theorem unauthenticated_rejected_before_store (req : Request) (s : Store)
    (h : authGuard req.auth = false) :
    handleRequest req s = (createResponse 401 (messageBody "Unauthorized"), s) ∧
    (handleRequest req s).2.accessCount = s.accessCount ∧
    (handleRequest req s).1.statusCode = 401 ∧
    (handleRequest req s).1.body = "\x7b\"message\":\"Unauthorized\"\x7d" := by
  have hr : handleRequest req s =
      (createResponse 401 (messageBody "Unauthorized"), s) := by
    simp [handleRequest, h]
  refine ⟨hr, ?_, ?_, ?_⟩ <;> rw [hr] <;> rfl

/-- Witness for C1: a List request with no token against a store holding one
item is answered 401 Unauthorized and the access counter stays at zero. -/
theorem unauthenticated_rejected_before_store_witness :
    handleRequest ⟨none, .listAll⟩ ⟨[("c001", [("name", .str "Latte")])], 0⟩ =
      (createResponse 401 (messageBody "Unauthorized"),
       ⟨[("c001", [("name", .str "Latte")])], 0⟩) ∧
    (handleRequest ⟨none, .listAll⟩
        ⟨[("c001", [("name", .str "Latte")])], 0⟩).2.accessCount = 0 ∧
    (handleRequest ⟨none, .listAll⟩
        ⟨[("c001", [("name", .str "Latte")])], 0⟩).1.statusCode = 401 ∧
    (handleRequest ⟨none, .listAll⟩
        ⟨[("c001", [("name", .str "Latte")])], 0⟩).1.body =
      "\x7b\"message\":\"Unauthorized\"\x7d" :=
  unauthenticated_rejected_before_store ⟨none, .listAll⟩
    ⟨[("c001", [("name", .str "Latte")])], 0⟩ rfl

/-- C4: `createResponse` returns a wire response whose body is the JSON
serialization of the given body, whose `Content-Type` header is fixed to
`application/json` and whose status code is the one given; and the same
header shape holds for the response of every operation of the pipeline. -/
theorem createResponse_shape (sc : Nat) (b : Json) :
    (createResponse sc b).statusCode = sc ∧
    (createResponse sc b).body = Json.stringify b ∧
    (createResponse sc b).headers = [("Content-Type", "application/json")] ∧
    ∀ req s, (handleRequest req s).1.headers =
      [("Content-Type", "application/json")] := by
  refine ⟨rfl, rfl, rfl, fun req s => ?_⟩
  obtain ⟨sc', b', he, -⟩ := envelope_shape req s
  rw [he]
  rfl

/-- C5 counterexample: the shared layer `utils.mjs` exports no `buildError`
builder — `createResponse` is its only response builder. -/
theorem buildError_not_exported : utilsExports.contains "buildError" = false :=
  rfl

/-- C5 (amended): the envelope provides the single builder `createResponse`;
every handler path, success or failure, returns through it, and every error
path (status 400 or above) passes a `\x7b "message": <string> \x7d` body to
it. -/
theorem every_path_via_createResponse :
    utilsExports.contains "createResponse" = true ∧
    ∀ req s, ∃ sc b, (handleRequest req s).1 = createResponse sc b ∧
      (400 ≤ sc → ∃ m, b = messageBody m) :=
  ⟨rfl, envelope_shape⟩

/-- C9 counterexample: the route table integrates both `GET /coffee` and
`GET /coffee/{id}` with the same `getCoffee` Lambda function, so the five
routes are not mapped to five distinct handlers. -/
theorem get_routes_share_one_lambda :
    routeTarget "GET" "/coffee" = some "getCoffee" ∧
    routeTarget "GET" "/coffee/{id}" = some "getCoffee" :=
  ⟨rfl, rfl⟩

/-- C9 (amended): the HTTP surface routes exactly these five (method, path)
pairs, to four Lambda functions: both `GET /coffee` and `GET /coffee/{id}`
to `getCoffee`, `POST /coffee` to `createCoffee`, `PUT /coffee/{id}` to
`updateCoffee`, `DELETE /coffee/{id}` to `deleteCoffee`; no other pair is
routed. -/
theorem routes_exact :
    routeTarget "GET" "/coffee" = some "getCoffee" ∧
    routeTarget "GET" "/coffee/{id}" = some "getCoffee" ∧
    routeTarget "POST" "/coffee" = some "createCoffee" ∧
    routeTarget "PUT" "/coffee/{id}" = some "updateCoffee" ∧
    routeTarget "DELETE" "/coffee/{id}" = some "deleteCoffee" ∧
    ∀ m p l, routeTarget m p = some l → ((m, p), l) ∈ routes := by
  refine ⟨rfl, rfl, rfl, rfl, rfl, fun m p l h => lookup_mem _ _ _ h⟩

/-- C10: the frontend's OIDC configuration fixes `response_type` to
`"code"` and `scope` to `"email openid phone"` for every environment, reads
exactly `authority`, `client_id` and `redirect_uri` from the environment,
and depends on no other environment value. -/
theorem cognitoAuthConfig_shape (env : String → String) :
    (cognitoAuthConfig env).response_type = "code" ∧
    (cognitoAuthConfig env).scope = "email openid phone" ∧
    (cognitoAuthConfig env).authority = env "VITE_COGNITO_AUTHORITY" ∧
    (cognitoAuthConfig env).client_id = env "VITE_COGNITO_CLIENT_ID" ∧
    (cognitoAuthConfig env).redirect_uri = env "VITE_COGNITO_REDIRECT_URI" ∧
    ∀ env2 : String → String,
      env "VITE_COGNITO_AUTHORITY" = env2 "VITE_COGNITO_AUTHORITY" →
      env "VITE_COGNITO_CLIENT_ID" = env2 "VITE_COGNITO_CLIENT_ID" →
      env "VITE_COGNITO_REDIRECT_URI" = env2 "VITE_COGNITO_REDIRECT_URI" →
      cognitoAuthConfig env = cognitoAuthConfig env2 := by
  refine ⟨rfl, rfl, rfl, rfl, rfl, fun env2 h1 h2 h3 => ?_⟩
  simp [cognitoAuthConfig, h1, h2, h3]

/-- C2: for every valid create payload whose id is not yet stored, Create
returns 201 with the item, and GetById on that id against the resulting
store returns 200 with an item equal to the one created. -/
theorem create_then_get_roundtrip (payload it : Item) (s : Store)
    (hv : validateCreate payload = .ok it)
    (hfresh : s.items.lookup (itemId it) = none) :
    (createHandler payload s).1 = createResponse 201 (.obj it) ∧
    (getByIdHandler (itemId it) (createHandler payload s).2).1 =
      createResponse 200 (.obj it) := by
  have hc : createHandler payload s =
      (createResponse 201 (.obj it),
       Store.putItem { s with accessCount := s.accessCount + 1 }
         (itemId it) it) := by
    unfold createHandler
    rw [hv]
    dsimp only
    unfold Store.getItem
    rw [hfresh]
  have hg2 : ((createHandler payload s).2).items.lookup (itemId it) =
      some it := by
    rw [hc]
    exact lookup_setAssoc_self _ _ _
  refine ⟨by rw [hc], ?_⟩
  unfold getByIdHandler Store.getItem
  rw [hg2]

/-- Witness for C2: creating the Latte item in the empty store answers 201
with the item, and the follow-up GetById answers 200 with the same item. -/
theorem create_then_get_roundtrip_witness :
    (createHandler
        [("id", Json.str "c001"), ("name", Json.str "Latte"),
         ("price", Json.num 4), ("availability", Json.bool true)]
        ⟨[], 0⟩).1 =
      createResponse 201 (.obj
        [("id", Json.str "c001"), ("name", Json.str "Latte"),
         ("price", Json.num 4), ("availability", Json.bool true)]) ∧
    (getByIdHandler
        (itemId
          [("id", Json.str "c001"), ("name", Json.str "Latte"),
           ("price", Json.num 4), ("availability", Json.bool true)])
        (createHandler
          [("id", Json.str "c001"), ("name", Json.str "Latte"),
           ("price", Json.num 4), ("availability", Json.bool true)]
          ⟨[], 0⟩).2).1 =
      createResponse 200 (.obj
        [("id", Json.str "c001"), ("name", Json.str "Latte"),
         ("price", Json.num 4), ("availability", Json.bool true)]) :=
  create_then_get_roundtrip _ _ _ rfl rfl

/-- C3: Create with an id that already exists returns 409 and leaves the
store's items — the previously stored item in particular — unmodified. -/
theorem create_conflict_preserves (payload it old : Item) (s : Store)
    (hv : validateCreate payload = .ok it)
    (hdup : s.items.lookup (itemId it) = some old) :
    (createHandler payload s).1 = createResponse 409 (messageBody "Conflict") ∧
    (createHandler payload s).2.items = s.items ∧
    (createHandler payload s).2.items.lookup (itemId it) = some old := by
  have hc : createHandler payload s =
      (createResponse 409 (messageBody "Conflict"),
       { s with accessCount := s.accessCount + 1 }) := by
    unfold createHandler
    rw [hv]
    dsimp only
    unfold Store.getItem
    rw [hdup]
  exact ⟨by rw [hc], by rw [hc], by rw [hc]; exact hdup⟩

/-- Witness for C3: re-creating id c001 against a store already holding a
different item under c001 answers 409 and the stored item survives. -/
theorem create_conflict_preserves_witness :
    (createHandler
        [("id", Json.str "c001"), ("name", Json.str "Latte"),
         ("price", Json.num 4)]
        ⟨[("c001", [("id", Json.str "c001"), ("name", Json.str "Mocha"),
          ("price", Json.num 3)])], 0⟩).1 =
      createResponse 409 (messageBody "Conflict") ∧
    (createHandler
        [("id", Json.str "c001"), ("name", Json.str "Latte"),
         ("price", Json.num 4)]
        ⟨[("c001", [("id", Json.str "c001"), ("name", Json.str "Mocha"),
          ("price", Json.num 3)])], 0⟩).2.items =
      [("c001", [("id", Json.str "c001"), ("name", Json.str "Mocha"),
        ("price", Json.num 3)])] ∧
    (createHandler
        [("id", Json.str "c001"), ("name", Json.str "Latte"),
         ("price", Json.num 4)]
        ⟨[("c001", [("id", Json.str "c001"), ("name", Json.str "Mocha"),
          ("price", Json.num 3)])], 0⟩).2.items.lookup
      (itemId [("id", Json.str "c001"), ("name", Json.str "Latte"),
        ("price", Json.num 4)]) =
      some [("id", Json.str "c001"), ("name", Json.str "Mocha"),
        ("price", Json.num 3)] :=
  create_conflict_preserves _ _ _ _ rfl rfl

/-- C6: for an id absent from the store, GetById, Update (with a payload
that passes validation) and Delete each answer 404 Not Found. -/
theorem absent_id_yields_404 (x : String) (payload fields : Item) (s : Store)
    (habs : s.items.lookup x = none)
    (hv : validateUpdate payload = .ok fields) :
    (getByIdHandler x s).1 = createResponse 404 (messageBody "Not Found") ∧
    (updateHandler x payload s).1 = createResponse 404 (messageBody "Not Found") ∧
    (deleteHandler x s).1 = createResponse 404 (messageBody "Not Found") := by
  refine ⟨?_, ?_, ?_⟩
  · unfold getByIdHandler Store.getItem
    rw [habs]
  · unfold updateHandler
    rw [hv]
    dsimp only
    unfold Store.updateItem
    rw [habs]
  · unfold deleteHandler Store.deleteItem
    rw [habs]

/-- Witness for C6: id c999 against the empty store — GetById, a price
update and Delete all answer 404. -/
theorem absent_id_yields_404_witness :
    (getByIdHandler "c999" ⟨[], 0⟩).1 =
      createResponse 404 (messageBody "Not Found") ∧
    (updateHandler "c999" [("price", Json.num 5)] ⟨[], 0⟩).1 =
      createResponse 404 (messageBody "Not Found") ∧
    (deleteHandler "c999" ⟨[], 0⟩).1 =
      createResponse 404 (messageBody "Not Found") :=
  absent_id_yields_404 "c999" [("price", Json.num 5)] [("price", Json.num 5)]
    ⟨[], 0⟩ rfl rfl

/-- A price-only update payload passes `validateUpdate` whenever the price
is non-negative, yielding the single price field. -/
theorem validateUpdate_price_only (p : Int) (hp : 0 ≤ p) :
    validateUpdate [("price", Json.num p)] = .ok [("price", Json.num p)] := by
  unfold validateUpdate
  have h1 : removeAssoc [("price", Json.num p)] "id" =
      [("price", Json.num p)] := rfl
  rw [h1]
  dsimp only
  have h2 : priceFieldOpt (List.lookup "price" [("price", Json.num p)]) =
      true := by
    show priceFieldOpt (some (Json.num p)) = true
    simp [priceFieldOpt, priceField, hp]
  rw [h2]
  rfl

/-- C7: updating a stored item with a price-only payload changes exactly the
price: the response is 200 with the new item, every other field of the item
(id included) and every other stored id are unchanged, and reapplying the
same update leaves the stored items identical. -/
theorem update_price_only_frame (id : String) (p : Int) (old : Item)
    (s : Store) (hp : 0 ≤ p) (hold : s.items.lookup id = some old) :
    ∃ ni : Item,
      (updateHandler id [("price", Json.num p)] s).1 =
        createResponse 200 (.obj ni) ∧
      (updateHandler id [("price", Json.num p)] s).2.items.lookup id =
        some ni ∧
      ni.lookup "price" = some (Json.num p) ∧
      (∀ k, k ≠ "price" → ni.lookup k = old.lookup k) ∧
      (∀ id2, id2 ≠ id →
        (updateHandler id [("price", Json.num p)] s).2.items.lookup id2 =
          s.items.lookup id2) ∧
      (updateHandler id [("price", Json.num p)]
          (updateHandler id [("price", Json.num p)] s).2).2.items =
        (updateHandler id [("price", Json.num p)] s).2.items := by
  have hv := validateUpdate_price_only p hp
  have hu : Store.updateItem s id [("price", Json.num p)] =
      (some (setAssoc old "price" (Json.num p)),
       { items := setAssoc s.items id (setAssoc old "price" (Json.num p)),
         accessCount := s.accessCount + 1 }) := by
    unfold Store.updateItem
    rw [hold]
    rfl
  have hh : updateHandler id [("price", Json.num p)] s =
      (createResponse 200 (.obj (setAssoc old "price" (Json.num p))),
       { items := setAssoc s.items id (setAssoc old "price" (Json.num p)),
         accessCount := s.accessCount + 1 }) := by
    unfold updateHandler
    rw [hv]
    dsimp only
    rw [hu]
  refine ⟨setAssoc old "price" (Json.num p), by rw [hh], ?_, ?_, ?_, ?_, ?_⟩
  · rw [hh]
    exact lookup_setAssoc_self _ _ _
  · exact lookup_setAssoc_self _ _ _
  · exact fun k hk => lookup_setAssoc_ne _ _ _ _ hk
  · intro id2 h2
    rw [hh]
    exact lookup_setAssoc_ne _ _ _ _ h2
  · rw [hh]
    have hu2 : Store.updateItem
        { items := setAssoc s.items id (setAssoc old "price" (Json.num p)),
          accessCount := s.accessCount + 1 } id [("price", Json.num p)] =
        (some (setAssoc old "price" (Json.num p)),
         { items := setAssoc s.items id (setAssoc old "price" (Json.num p)),
           accessCount := s.accessCount + 1 + 1 }) := by
      unfold Store.updateItem
      dsimp only
      rw [lookup_setAssoc_self]
      dsimp only [List.foldl]
      rw [setAssoc_idem, setAssoc_idem]
    unfold updateHandler
    rw [hv]
    dsimp only
    rw [hu2]

/-- Witness for C7: updating c001's price to 5 changes the price, keeps id
and name, and reapplying the update leaves the stored items identical. -/
theorem update_price_only_frame_witness :
    ∃ ni : Item,
      (updateHandler "c001" [("price", Json.num 5)]
          ⟨[("c001", [("id", Json.str "c001"), ("name", Json.str "Latte"),
            ("price", Json.num 4)])], 0⟩).1 =
        createResponse 200 (.obj ni) ∧
      (updateHandler "c001" [("price", Json.num 5)]
          ⟨[("c001", [("id", Json.str "c001"), ("name", Json.str "Latte"),
            ("price", Json.num 4)])], 0⟩).2.items.lookup "c001" = some ni ∧
      ni.lookup "price" = some (Json.num 5) ∧
      (∀ k, k ≠ "price" → ni.lookup k =
        List.lookup k [("id", Json.str "c001"), ("name", Json.str "Latte"),
          ("price", Json.num 4)]) ∧
      (∀ id2, id2 ≠ "c001" →
        (updateHandler "c001" [("price", Json.num 5)]
            ⟨[("c001", [("id", Json.str "c001"), ("name", Json.str "Latte"),
              ("price", Json.num 4)])], 0⟩).2.items.lookup id2 =
          List.lookup id2
            [("c001", [("id", Json.str "c001"), ("name", Json.str "Latte"),
              ("price", Json.num 4)])]) ∧
      (updateHandler "c001" [("price", Json.num 5)]
          (updateHandler "c001" [("price", Json.num 5)]
            ⟨[("c001", [("id", Json.str "c001"), ("name", Json.str "Latte"),
              ("price", Json.num 4)])], 0⟩).2).2.items =
        (updateHandler "c001" [("price", Json.num 5)]
            ⟨[("c001", [("id", Json.str "c001"), ("name", Json.str "Latte"),
              ("price", Json.num 4)])], 0⟩).2.items :=
  update_price_only_frame "c001" 5
    [("id", Json.str "c001"), ("name", Json.str "Latte"),
     ("price", Json.num 4)]
    ⟨[("c001", [("id", Json.str "c001"), ("name", Json.str "Latte"),
      ("price", Json.num 4)])], 0⟩ (by decide) rfl

/-- `validateCreate` succeeds exactly when all four field checks pass. -/
theorem validateCreate_isOk_eq (payload : Item) :
    (validateCreate payload).isOk =
      (nonemptyStr (payload.lookup "id") &&
       nonemptyStr (payload.lookup "name") &&
       priceField (payload.lookup "price") &&
       availField (payload.lookup "availability")) := by
  unfold validateCreate
  by_cases h1 : nonemptyStr (List.lookup "id" payload) <;>
  by_cases h2 : nonemptyStr (List.lookup "name" payload) <;>
  by_cases h3 : priceField (List.lookup "price" payload) <;>
  by_cases h4 : availField (List.lookup "availability" payload) <;>
  simp [h1, h2, h3, h4, Except.isOk, Except.toBool]

/-- C8: the validator rejects every create payload missing `name`, every
payload whose `price` is absent, non-numeric or negative, and every payload
whose `availability` has an unknown type; and `validateUpdate` rejects a
payload with no mutable field.  (Both validators are pure functions of the
payload alone: by their types they cannot touch a `Store`.) -/
theorem validator_rejects (payload : Item) :
    (payload.lookup "name" = none → (validateCreate payload).isOk = false) ∧
    (payload.lookup "price" = none → (validateCreate payload).isOk = false) ∧
    (∀ j, payload.lookup "price" = some j → (∀ n : Int, j ≠ Json.num n) →
      (validateCreate payload).isOk = false) ∧
    (∀ n : Int, payload.lookup "price" = some (Json.num n) → n < 0 →
      (validateCreate payload).isOk = false) ∧
    (∀ j, payload.lookup "availability" = some j →
      (∀ b : Bool, j ≠ Json.bool b) →
      (validateCreate payload).isOk = false) ∧
    ((removeAssoc payload "id").isEmpty = true →
      (validateUpdate payload).isOk = false) := by
  refine ⟨?_, ?_, ?_, ?_, ?_, ?_⟩
  · intro h
    rw [validateCreate_isOk_eq, h]
    simp [nonemptyStr]
  · intro h
    rw [validateCreate_isOk_eq, h]
    simp [priceField]
  · intro j hj hnum
    rw [validateCreate_isOk_eq, hj]
    cases j with
    | num n => exact absurd rfl (hnum n)
    | null => simp [priceField]
    | bool b => simp [priceField]
    | str s => simp [priceField]
    | arr xs => simp [priceField]
    | obj fs => simp [priceField]
  · intro n hn hneg
    rw [validateCreate_isOk_eq, hn]
    have : priceField (some (Json.num n)) = false := by
      simp [priceField]
      omega
    simp [this]
  · intro j hj hbool
    rw [validateCreate_isOk_eq, hj]
    cases j with
    | bool b => exact absurd rfl (hbool b)
    | null => simp [availField]
    | num n => simp [availField]
    | str s => simp [availField]
    | arr xs => simp [availField]
    | obj fs => simp [availField]
  · intro h
    unfold validateUpdate
    dsimp only
    rw [h]
    rfl

/-- Witness for C8: concrete rejections — a payload missing `name`, one with
a string price, one with a negative price, one with a numeric availability,
and an empty update payload. -/
theorem validator_rejects_witness :
    (validateCreate [("id", Json.str "c001"), ("price", Json.num 4)]).isOk =
      false ∧
    (validateCreate [("id", Json.str "c001"), ("name", Json.str "Latte"),
      ("price", Json.str "four")]).isOk = false ∧
    (validateCreate [("id", Json.str "c001"), ("name", Json.str "Latte"),
      ("price", Json.num (-2))]).isOk = false ∧
    (validateCreate [("id", Json.str "c001"), ("name", Json.str "Latte"),
      ("price", Json.num 4), ("availability", Json.num 1)]).isOk = false ∧
    (validateUpdate [("id", Json.str "c001")]).isOk = false :=
  ⟨(validator_rejects [("id", Json.str "c001"), ("price", Json.num 4)]).1 rfl,
   (validator_rejects [("id", Json.str "c001"), ("name", Json.str "Latte"),
      ("price", Json.str "four")]).2.2.1 (Json.str "four") rfl
      (fun n h => Json.noConfusion h),
   (validator_rejects [("id", Json.str "c001"), ("name", Json.str "Latte"),
      ("price", Json.num (-2))]).2.2.2.1 (-2) rfl (by decide),
   (validator_rejects [("id", Json.str "c001"), ("name", Json.str "Latte"),
      ("price", Json.num 4), ("availability", Json.num 1)]).2.2.2.2.1
      (Json.num 1) rfl (fun b h => Json.noConfusion h),
   (validator_rejects [("id", Json.str "c001")]).2.2.2.2.2 rfl⟩
